import Mathlib

/-!
Verification development for the `launchbar-node` automation facade
(`src/index.js`).  Each facade operation that shells out to the scripting
interpreter is embedded as a pure function returning the command string it
sends (the third element of the `osascript` argv); `textAction` is embedded
as a function returning a description of its one observable effect; the
Environment Snapshot is a record computed from an environment-lookup
function; the two persistence handles are records of their constructor
arguments.
-/

namespace LaunchBar

/-- Modelled from the spec: the external `escape-string-applescript`
dependency (not under `src/`).  Per the spec's escaping rule, quotes and
backslashes in the text are neutralized so the text cannot break out of the
intended string literal: each `"` or `\` is prefixed with a backslash. -/
def escapeChar (c : Char) : List Char :=
  if c == '"' || c == '\\' then ['\\', c] else [c]

/-- Escape a character list by escaping every character. -/
def escapeList (s : List Char) : List Char :=
  s.flatMap escapeChar

/-- Modelled from the spec: the string-escaping transform applied to
caller-supplied text before interpolation into a command string. -/
def escapeString (s : String) : String :=
  ⟨escapeList s.data⟩

/-- `setClipboardString` (src/index.js lines 86-93): the command string sent
to the interpreter, with the caller's text escaped. -/
def setClipboardString (text : String) : String :=
  "tell application \"LaunchBar\" to set the clipboard to \"" ++
    escapeString text ++ "\""

/-- `paste` (src/index.js lines 106-113): the command string sent to the
interpreter, with the caller's text escaped. -/
def paste (text : String) : String :=
  "tell application \"LaunchBar\" to paste in frontmost application \"" ++
    escapeString text ++ "\""

/-- `performService` (src/index.js lines 120-127): the command string sent
to the interpreter.  The source interpolates `service` directly and passes
only `argv` through the escaping transform. -/
def performService (service : String) (argv : String) : String :=
  "tell application \"LaunchBar\" to perform service \"" ++ service ++
    "\" with string \"" ++ escapeString argv ++ "\""

/-- Modelled from the spec: a variant of `performService` in which every
embedded text passes through the string-escaping transform, as the spec's
escaping rule requires of all interpolated text.  Used to compare the
source's behavior against the spec's words. -/
def performServiceAllEscaped (service : String) (argv : String) : String :=
  "tell application \"LaunchBar\" to perform service \"" ++
    escapeString service ++ "\" with string \"" ++ escapeString argv ++ "\""

/-- Modelled from the spec: the scripting interpreter's string-literal
quoting rules.  Given the characters after an opening quote, scan until the
first unescaped closing quote: a backslash makes the following character
literal content.  Returns the decoded content together with the characters
remaining after the closing quote, or `none` when no closing quote is
reached. -/
def scanStringLit : List Char → Option (List Char × List Char)
  | [] => none
  | '"' :: rest => some ([], rest)
  | '\\' :: [] => none
  | '\\' :: e :: rest2 =>
    match scanStringLit rest2 with
    | some (s, r) => some (e :: s, r)
    | none => none
  | c :: rest =>
    match scanStringLit rest with
    | some (s, r) => some (c :: s, r)
    | none => none

/-- The options record accepted by `displayNotification` (src/index.js
lines 139-145): every field is optional; `afterDelay` is a number. -/
structure NotifOptions where
  text : Option String := none
  title : Option String := none
  subtitle : Option String := none
  callbackUrl : Option String := none
  afterDelay : Option Nat := none

/-- JavaScript `v || d` on an optional string value: an absent or empty
string is falsy and yields the default `d`. -/
def jsOr (v : Option String) (d : String) : String :=
  match v with
  | none => d
  | some s => if s = "" then d else s

/-- JavaScript `v || d` on an optional number value: an absent value or the
number `0` is falsy and yields the default `d`. -/
def jsOrNum (v : Option Nat) (d : Nat) : Nat :=
  match v with
  | none => d
  | some n => if n = 0 then d else n

/-- The command template of `displayNotification` (src/index.js lines
154-160), parameterized by the five already-resolved interpolated values. -/
def notifTemplate (text title subtitle callbackUrl : String)
    (afterDelay : Nat) : String :=
  "tell application \"LaunchBar\" to display in notification center \"" ++
    text ++ "\" ¬\n\t\twith title \"" ++ title ++
    "\" ¬\n\t\tsubtitle \"" ++ subtitle ++
    "\" ¬\n\t\tcallback URL \"" ++ callbackUrl ++
    "\" ¬\n\t\tafter delay \"" ++ toString afterDelay ++ "\""

/-- `displayNotification` (src/index.js lines 138-161): the command string
sent to the interpreter.  The defaults are set first; when an options record
is given, `text`, `title` and `subtitle` pass through the escaping
transform and then through `||` with their default, while `callbackUrl` and
`afterDelay` pass only through `||`.  (The escaping of an absent field
follows the spec's reading of the source's `escapeString(x) || default`
pattern: an absent field yields its default.) -/
def displayNotification (options : Option NotifOptions) : String :=
  match options with
  | none => notifTemplate "" "LaunchBar" "" "" 0
  | some o =>
    notifTemplate
      (jsOr (o.text.map escapeString) "")
      (jsOr (o.title.map escapeString) "LaunchBar")
      (jsOr (o.subtitle.map escapeString) "")
      (jsOr o.callbackUrl "")
      (jsOrNum o.afterDelay 0)

/-- Modelled from the spec: a variant of `displayNotification` in which
every embedded text field, `callbackUrl` included, passes through the
string-escaping transform, as the spec's escaping rule requires.  Used to
compare the source's behavior against the spec's words. -/
def displayNotificationAllEscaped (options : Option NotifOptions) : String :=
  match options with
  | none => notifTemplate "" "LaunchBar" "" "" 0
  | some o =>
    notifTemplate
      (jsOr (o.text.map escapeString) "")
      (jsOr (o.title.map escapeString) "LaunchBar")
      (jsOr (o.subtitle.map escapeString) "")
      (jsOr (o.callbackUrl.map escapeString) "")
      (jsOrNum o.afterDelay 0)

/-- Whitespace as trimmed from process output: space, tab, newline,
carriage return. -/
def isWs (c : Char) : Bool :=
  c == ' ' || c == '\t' || c == '\n' || c == '\r'

/-- Trim leading and trailing whitespace from a character list. -/
def trimWs (s : List Char) : List Char :=
  ((s.dropWhile isWs).reverse.dropWhile isWs).reverse

/-- Modelled from the spec: the result value the external `task.execFile`
dependency (not under `src/`) resolves with — the spawned process's
standard output after trimming whitespace. -/
def execFileResult (stdout : String) : String :=
  ⟨trimWs stdout.data⟩

/-- `hasKeyboardFocus` (src/index.js lines 74-80): compares the resolved
`execFile` result against the literal string "true". -/
def hasKeyboardFocus (stdout : String) : Bool :=
  execFileResult stdout == "true"

/-- The Environment Snapshot record (src/index.js lines 219-233). -/
structure Env where
  actionPath : Option String
  cachePath : Option String
  supportPath : Option String
  isDebugLogEnabled : Bool
  applicationPath : Option String
  scriptType : Option String
  commandKey : Bool
  alternateKey : Bool
  shiftKey : Bool
  controlKey : Bool
  spaceKey : Bool
  actionRunsInBackground : Bool
  isLiveFeedbackEnabled : Bool

/-- `LaunchBar.env` (src/index.js lines 219-233), computed from an
environment-variable lookup `g` (the embedding of `process.env`): string
fields are passed through, boolean fields test equality with the literal
string "1". -/
def makeEnv (g : String → Option String) : Env where
  actionPath := g "LB_ACTION_PATH"
  cachePath := g "LB_CACHE_PATH"
  supportPath := g "LB_SUPPORT_PATH"
  isDebugLogEnabled := g "LB_DEBUG_LOG_ENABLED" == some "1"
  applicationPath := g "LB_LAUNCHBAR_PATH"
  scriptType := g "LB_SCRIPT_TYPE"
  commandKey := g "LB_OPTION_COMMAND_KEY" == some "1"
  alternateKey := g "LB_OPTION_ALTERNATE_KEY" == some "1"
  shiftKey := g "LB_OPTION_SHIFT_KEY" == some "1"
  controlKey := g "LB_OPTION_CONTROL_KEY" == some "1"
  spaceKey := g "LB_OPTION_SPACE_KEY" == some "1"
  actionRunsInBackground := g "LB_OPTION_RUN_IN_BACKGROUND" == some "1"
  isLiveFeedbackEnabled := g "LB_OPTION_LIVE_FEEDBACK" == some "1"

/-- The constructor arguments of the external `Conf` persistence engine as
passed at src/index.js lines 241-243. -/
structure ConfInit where
  cwd : Option String

/-- The constructor arguments of the external `CacheConf` persistence
engine as passed at src/index.js lines 245-248. -/
structure CacheConfInit where
  configName : String
  cwd : Option String

/-- `LaunchBar.config` (src/index.js lines 241-243): the Delegated Config
Store handle, constructed with the snapshot's support path. -/
def config (env : Env) : ConfInit where
  cwd := env.supportPath

/-- `LaunchBar.cache` (src/index.js lines 245-248): the Delegated Cache
Store handle, constructed with the snapshot's cache path. -/
def cache (env : Env) : CacheConfInit where
  configName := "cache"
  cwd := env.cachePath

/-- JavaScript `str.split("\n")` on a character list: the list of segments
between newline characters, with empty segments preserved. -/
def splitNl : List Char → List (List Char)
  | [] => [[]]
  | c :: rest =>
    if c == '\n' then [] :: splitNl rest
    else
      match splitNl rest with
      | [] => [[c]]
      | l :: ls => (c :: l) :: ls

/-- JavaScript `str.split("\n")` on a string. -/
def splitLines (s : String) : List String :=
  (splitNl s.data).map (fun l => ⟨l⟩)

/-- One character of `JSON.stringify` string escaping. -/
def jsonEscChar (c : Char) : List Char :=
  if c == '"' then ['\\', '"']
  else if c == '\\' then ['\\', '\\']
  else if c == '\n' then ['\\', 'n']
  else if c == '\t' then ['\\', 't']
  else if c == '\r' then ['\\', 'r']
  else [c]

/-- `JSON.stringify` of a string value: the escaped text in quotes. -/
def jsonQuote (s : String) : String :=
  "\"" ++ (⟨s.data.flatMap jsonEscChar⟩ : String) ++ "\""

/-- `JSON.stringify` of one `{title: x}` record built by `textAction`. -/
def jsonTitleObj (s : String) : String :=
  "\x7b\"title\":" ++ jsonQuote s ++ "\x7d"

/-- `JSON.stringify` of the array of `{title: x}` records built by
`textAction` from the list of output lines. -/
def jsonTitleArray (ls : List String) : String :=
  "[" ++ String.intercalate "," (ls.map jsonTitleObj) ++ "]"

/-- The argument of `textAction`: a single string or an array of strings
(src/index.js lines 180-183). -/
inductive TextArgs where
  | str (s : String)
  | arr (xs : List String)

/-- The one observable effect of a `textAction` call: either one JSON value
written to standard output via `console.log`, or one call to `paste` with
the joined text (which spawns the interpreter process). -/
inductive Effect where
  | consoleLog (out : String)
  | pasteText (text : String)
deriving DecidableEq

/-- The line sequence computed by `textAction` (src/index.js lines
184-190): normalize the argument to an array, split each element on
newlines, apply the processing function to each line, flatten. -/
def textActionLines (args : TextArgs) (f : String → String) : List String :=
  let inputText : List String :=
    match args with
    | .str s => [s]
    | .arr xs => xs
  (inputText.map (fun t => (splitLines t).map f)).flatten

/-- `textAction` (src/index.js lines 175-202): when the snapshot's command
key flag is set, log the lines as a JSON array of `{title: line}` records;
otherwise paste the lines joined with `joiner` (whose source default is
"\n"). -/
def textAction (env : Env) (args : TextArgs) (f : String → String)
    (joiner : String) : Effect :=
  if env.commandKey then
    .consoleLog (jsonTitleArray (textActionLines args f))
  else
    .pasteText (String.intercalate joiner (textActionLines args f))

/-- The uppercasing line processor used by the spec's `textAction` example
("`upper` uppercases a line"). -/
def upper (s : String) : String :=
  ⟨s.data.map Char.toUpper⟩

end LaunchBar

/-! ## Helper lemmas -/

/-- Scanning an escaped text followed by a closing quote decodes exactly the
original text and stops at that quote: escaping keeps the text inside the
intended string literal. -/
theorem scanStringLit_escapeList (s rest : List Char) :
    LaunchBar.scanStringLit (LaunchBar.escapeList s ++ '"' :: rest) =
      some (s, rest) := by
  induction s with
  | nil => rfl
  | cons c t ih =>
    by_cases hq : c = '"'
    · subst hq
      have h2 : LaunchBar.scanStringLit
            (LaunchBar.escapeList ('"' :: t) ++ '"' :: rest) =
          match LaunchBar.scanStringLit
              (LaunchBar.escapeList t ++ '"' :: rest) with
          | some (s, r) => some ('"' :: s, r)
          | none => none := rfl
      rw [h2, ih]
    · by_cases hb : c = '\\'
      · subst hb
        have h2 : LaunchBar.scanStringLit
              (LaunchBar.escapeList ('\\' :: t) ++ '"' :: rest) =
            match LaunchBar.scanStringLit
                (LaunchBar.escapeList t ++ '"' :: rest) with
            | some (s, r) => some ('\\' :: s, r)
            | none => none := rfl
        rw [h2, ih]
      · have hcq : (c == '"') = false := by simp [hq]
        have hcb : (c == '\\') = false := by simp [hb]
        have h0 : LaunchBar.escapeList (c :: t) ++ '"' :: rest =
            c :: (LaunchBar.escapeList t ++ '"' :: rest) := by
          simp [LaunchBar.escapeList, LaunchBar.escapeChar, hcq, hcb]
        rw [h0]
        simp [LaunchBar.scanStringLit, hq, hb, ih]

/-- Escaping produces the empty character list only from the empty one. -/
theorem escapeList_eq_nil_iff (l : List Char) :
    LaunchBar.escapeList l = [] ↔ l = [] := by
  cases l with
  | nil => simp [LaunchBar.escapeList]
  | cons c t =>
    constructor
    · intro h
      exfalso
      have h2 : LaunchBar.escapeChar c ++ LaunchBar.escapeList t = [] := h
      have h3 := (List.append_eq_nil.mp h2).1
      unfold LaunchBar.escapeChar at h3
      split at h3 <;> simp_all
    · intro h
      exact absurd h (by simp)

/-- Escaping a nonempty string yields a nonempty string. -/
theorem escapeString_ne_empty {s : String} (h : s ≠ "") :
    LaunchBar.escapeString s ≠ "" := by
  intro he
  apply h
  have hl : LaunchBar.escapeList s.data = [] := congrArg String.data he
  exact String.ext ((escapeList_eq_nil_iff s.data).mp hl)

/-! ## Claim theorems -/

/-- C1 (counterexample): the claim that every caller-supplied text embedded
in a command string first passes through the string-escaping transform is
false for `performService`: at service `a"b`, the command produced by the
source embeds the raw quote, and differs from the fully-escaping variant
the claim demands. -/
theorem performService_unescaped_service :
    LaunchBar.performService "a\"b" "c" =
      "tell application \"LaunchBar\" to perform service \"a\"b\" with string \"c\""
    ∧ LaunchBar.performService "a\"b" "c" ≠
      LaunchBar.performServiceAllEscaped "a\"b" "c" := by
  exact ⟨by decide, by decide⟩

/-- C1 (amended): `setClipboardString`, `paste`, `performService`'s `argv`,
and `displayNotification`'s `text`, `title` and `subtitle` pass through the
string-escaping transform before being embedded in the command string;
`performService`'s `service` and `displayNotification`'s `callbackUrl` are
embedded without escaping. -/
theorem escape_transform_per_operation :
    (∀ t : String, LaunchBar.setClipboardString t =
      "tell application \"LaunchBar\" to set the clipboard to \"" ++
        LaunchBar.escapeString t ++ "\"")
    ∧ (∀ t : String, LaunchBar.paste t =
      "tell application \"LaunchBar\" to paste in frontmost application \"" ++
        LaunchBar.escapeString t ++ "\"")
    ∧ (∀ s a : String, LaunchBar.performService s a =
      "tell application \"LaunchBar\" to perform service \"" ++ s ++
        "\" with string \"" ++ LaunchBar.escapeString a ++ "\"")
    ∧ (∀ t ti su cu : String, ∀ d : Nat,
        LaunchBar.displayNotification
            (some ⟨some t, some ti, some su, some cu, some d⟩) =
          LaunchBar.notifTemplate
            (LaunchBar.jsOr (some (LaunchBar.escapeString t)) "")
            (LaunchBar.jsOr (some (LaunchBar.escapeString ti)) "LaunchBar")
            (LaunchBar.jsOr (some (LaunchBar.escapeString su)) "")
            cu d) := by
  refine ⟨fun t => rfl, fun t => rfl, fun s a => rfl, fun t ti su cu d => ?_⟩
  show LaunchBar.notifTemplate _ _ _ (LaunchBar.jsOr (some cu) "")
      (LaunchBar.jsOrNum (some d) 0) = _
  rcases eq_or_ne cu "" with hcu | hcu <;>
    rcases eq_or_ne d 0 with hd | hd <;>
      simp [LaunchBar.jsOr, LaunchBar.jsOrNum, hcu, hd]

/-- C2: for every string containing a quote or a backslash, the commands
built by `setClipboardString` and `paste` embed the escaped text between
the template's quotes, and scanning the embedded segment by the
interpreter's quoting rules decodes exactly the original text and ends
exactly at the template's closing quote — the text cannot break out of the
intended string literal. -/
theorem clipboard_paste_injection_safe (s : String)
    (h : '"' ∈ s.data ∨ '\\' ∈ s.data) :
    LaunchBar.setClipboardString s =
      "tell application \"LaunchBar\" to set the clipboard to \"" ++
        LaunchBar.escapeString s ++ "\""
    ∧ LaunchBar.paste s =
      "tell application \"LaunchBar\" to paste in frontmost application \"" ++
        LaunchBar.escapeString s ++ "\""
    ∧ LaunchBar.scanStringLit ((LaunchBar.escapeString s).data ++ ['"']) =
      some (s.data, []) :=
  ⟨rfl, rfl, scanStringLit_escapeList s.data []⟩

/-- C2 (witness): the property at the concrete string `a"b\`. -/
theorem clipboard_paste_injection_safe_witness :
    ('"' ∈ ("a\"b\\" : String).data ∨ '\\' ∈ ("a\"b\\" : String).data)
    ∧ LaunchBar.scanStringLit
        ((LaunchBar.escapeString "a\"b\\").data ++ ['"']) =
      some (("a\"b\\" : String).data, []) :=
  ⟨Or.inl (by decide),
    (clipboard_paste_injection_safe "a\"b\\" (Or.inl (by decide))).2.2⟩

/-- C3: `hasKeyboardFocus` yields `true` exactly when the process's
standard output, after trimming whitespace, is the text "true"; any other
output yields `false`. -/
theorem hasKeyboardFocus_iff_trimmed_true (out : String) :
    LaunchBar.hasKeyboardFocus out = true ↔
      LaunchBar.trimWs out.data = ("true" : String).data := by
  unfold LaunchBar.hasKeyboardFocus LaunchBar.execFileResult
  rw [beq_iff_eq, String.ext_iff]

/-- C5: `displayNotification` with no options record yields the
notification command with empty text, title "LaunchBar", empty subtitle,
empty callback URL, and delay 0. -/
theorem displayNotification_no_args_defaults :
    LaunchBar.displayNotification none =
      LaunchBar.notifTemplate "" "LaunchBar" "" "" 0
    ∧ LaunchBar.displayNotification none =
      "tell application \"LaunchBar\" to display in notification center \"\" ¬\n\t\twith title \"LaunchBar\" ¬\n\t\tsubtitle \"\" ¬\n\t\tcallback URL \"\" ¬\n\t\tafter delay \"0\"" := by
  exact ⟨rfl, by decide⟩

/-- C4: on `["a\nb", "c"]` with the uppercasing processor and joiner "-",
`textAction` computes the ordered line sequence `["A", "B", "C"]`; with the
snapshot's command-key flag unset its effect is pasting "A-B-C", and with
the flag set its effect is logging the JSON array
`[{"title":"A"},{"title":"B"},{"title":"C"}]`; in general the line sequence
is obtained by splitting each input string on newlines, applying the
processor to every line in order, and flattening the per-input lists. -/
theorem textAction_example_and_flattening :
    LaunchBar.textActionLines (.arr ["a\nb", "c"]) LaunchBar.upper =
      ["A", "B", "C"]
    ∧ (∀ env : LaunchBar.Env, env.commandKey = false →
        LaunchBar.textAction env (.arr ["a\nb", "c"]) LaunchBar.upper "-" =
          .pasteText "A-B-C")
    ∧ (∀ env : LaunchBar.Env, env.commandKey = true →
        LaunchBar.textAction env (.arr ["a\nb", "c"]) LaunchBar.upper "-" =
          .consoleLog
            "[\x7b\"title\":\"A\"\x7d,\x7b\"title\":\"B\"\x7d,\x7b\"title\":\"C\"\x7d]")
    ∧ (∀ (xs : List String) (f : String → String),
        LaunchBar.textActionLines (.arr xs) f =
          (xs.map (fun s => (LaunchBar.splitLines s).map f)).flatten) := by
  refine ⟨by decide, ?_, ?_, fun xs f => rfl⟩
  · intro env h
    unfold LaunchBar.textAction
    rw [h]
    decide
  · intro env h
    unfold LaunchBar.textAction
    rw [h]
    decide

/-- C4 (witness): the two effect equations at concrete snapshots with the
command-key flag unset and set. -/
theorem textAction_example_and_flattening_witness :
    LaunchBar.textAction (LaunchBar.makeEnv (fun _ => none))
        (.arr ["a\nb", "c"]) LaunchBar.upper "-" = .pasteText "A-B-C"
    ∧ LaunchBar.textAction (LaunchBar.makeEnv (fun _ => some "1"))
        (.arr ["a\nb", "c"]) LaunchBar.upper "-" =
      .consoleLog
        "[\x7b\"title\":\"A\"\x7d,\x7b\"title\":\"B\"\x7d,\x7b\"title\":\"C\"\x7d]" :=
  ⟨textAction_example_and_flattening.2.1 _ (by decide),
    textAction_example_and_flattening.2.2.1 _ (by decide)⟩

/-- C6 (counterexample): the claim that all of `displayNotification`'s text
fields are escaped before embedding is false: at an options record whose
`callbackUrl` contains a quote, the source's command differs from the
fully-escaping variant the claim demands — the quote is embedded raw. -/
theorem displayNotification_callbackUrl_unescaped :
    LaunchBar.displayNotification (some { callbackUrl := some "a\"b" }) ≠
      LaunchBar.displayNotificationAllEscaped
        (some { callbackUrl := some "a\"b" }) := by
  decide

/-- C6 (amended): for every options record, `displayNotification` resolves
each field independently: a field that is absent — or, because the source
resolves fields with JavaScript `||`, present but empty (string fields) or
zero (`afterDelay`) — takes its documented default (text "", title
"LaunchBar", subtitle "", callbackUrl "", afterDelay 0); a present nonempty
`text`, `title` or `subtitle` is escaped before being embedded in the
command string, while `callbackUrl` and `afterDelay` are embedded without
escaping. -/
theorem displayNotification_defaults_and_escaping
    (o : LaunchBar.NotifOptions) :
    LaunchBar.displayNotification (some o) =
      LaunchBar.notifTemplate
        (match o.text with
          | none => ""
          | some s => if s = "" then "" else LaunchBar.escapeString s)
        (match o.title with
          | none => "LaunchBar"
          | some s => if s = "" then "LaunchBar" else LaunchBar.escapeString s)
        (match o.subtitle with
          | none => ""
          | some s => if s = "" then "" else LaunchBar.escapeString s)
        (match o.callbackUrl with
          | none => ""
          | some s => s)
        (match o.afterDelay with
          | none => 0
          | some n => n) := by
  rcases o with ⟨t, ti, su, cu, d⟩
  have hT : ∀ (v : Option String) (dflt : String),
      LaunchBar.jsOr (Option.map LaunchBar.escapeString v) dflt =
        (match v with
          | none => dflt
          | some s => if s = "" then dflt else LaunchBar.escapeString s) := by
    intro v dflt
    cases v with
    | none => rfl
    | some s =>
      rcases eq_or_ne s "" with h | h
      · subst h; rfl
      · simp [LaunchBar.jsOr, h, escapeString_ne_empty h]
  have hC : ∀ v : Option String,
      LaunchBar.jsOr v "" = (match v with | none => "" | some s => s) := by
    intro v
    cases v with
    | none => rfl
    | some s =>
      rcases eq_or_ne s "" with h | h
      · subst h; rfl
      · simp [LaunchBar.jsOr, h]
  have hD : ∀ v : Option Nat,
      LaunchBar.jsOrNum v 0 = (match v with | none => 0 | some n => n) := by
    intro v
    cases v with
    | none => rfl
    | some n =>
      rcases eq_or_ne n 0 with h | h
      · subst h; rfl
      · simp [LaunchBar.jsOrNum, h]
  show LaunchBar.notifTemplate
      (LaunchBar.jsOr (Option.map LaunchBar.escapeString t) "")
      (LaunchBar.jsOr (Option.map LaunchBar.escapeString ti) "LaunchBar")
      (LaunchBar.jsOr (Option.map LaunchBar.escapeString su) "")
      (LaunchBar.jsOr cu "") (LaunchBar.jsOrNum d 0) = _
  rw [hT t "", hT ti "LaunchBar", hT su "", hC cu, hD d]

/-- C6 (witness): the amended contract at a mixed-presence record — text
present and containing a quote, every other field absent: the text is
embedded escaped and the other fields take their documented defaults. -/
theorem displayNotification_defaults_and_escaping_witness :
    LaunchBar.displayNotification (some { text := some "a\"b" }) =
      LaunchBar.notifTemplate (LaunchBar.escapeString "a\"b")
        "LaunchBar" "" "" 0 :=
  (displayNotification_defaults_and_escaping { text := some "a\"b" }).trans
    (by decide)

/-- C7: each boolean field of the Environment Snapshot is `true` exactly
when the corresponding environment variable's value is the literal string
"1", and `false` for any other value including absence. -/
theorem env_bool_fields_iff_literal_one (g : String → Option String) :
    ((LaunchBar.makeEnv g).isDebugLogEnabled = true ↔
      g "LB_DEBUG_LOG_ENABLED" = some "1")
    ∧ ((LaunchBar.makeEnv g).commandKey = true ↔
      g "LB_OPTION_COMMAND_KEY" = some "1")
    ∧ ((LaunchBar.makeEnv g).alternateKey = true ↔
      g "LB_OPTION_ALTERNATE_KEY" = some "1")
    ∧ ((LaunchBar.makeEnv g).shiftKey = true ↔
      g "LB_OPTION_SHIFT_KEY" = some "1")
    ∧ ((LaunchBar.makeEnv g).controlKey = true ↔
      g "LB_OPTION_CONTROL_KEY" = some "1")
    ∧ ((LaunchBar.makeEnv g).spaceKey = true ↔
      g "LB_OPTION_SPACE_KEY" = some "1")
    ∧ ((LaunchBar.makeEnv g).actionRunsInBackground = true ↔
      g "LB_OPTION_RUN_IN_BACKGROUND" = some "1")
    ∧ ((LaunchBar.makeEnv g).isLiveFeedbackEnabled = true ↔
      g "LB_OPTION_LIVE_FEEDBACK" = some "1") := by
  simp [LaunchBar.makeEnv]

/-- C8: the Delegated Config Store handle is constructed with its directory
set to the snapshot's support path, and the Delegated Cache Store handle
with its directory set to the snapshot's cache path (and config name
"cache"). -/
theorem stores_wired_to_snapshot_paths (g : String → Option String) :
    (LaunchBar.config (LaunchBar.makeEnv g)).cwd =
      (LaunchBar.makeEnv g).supportPath
    ∧ (LaunchBar.cache (LaunchBar.makeEnv g)).cwd =
      (LaunchBar.makeEnv g).cachePath
    ∧ (LaunchBar.cache (LaunchBar.makeEnv g)).configName = "cache" :=
  ⟨rfl, rfl, rfl⟩

/-- C9: a single-string argument is normalized to the one-element array
containing it: `textAction` behaves identically on the two. -/
theorem textAction_normalizes_single_string (s : String)
    (f : String → String) (j : String) (env : LaunchBar.Env) :
    LaunchBar.textAction env (.str s) f j =
      LaunchBar.textAction env (.arr [s]) f j := rfl

/-- C10: whenever the snapshot's command-key flag is set, the effect of
`textAction` is exactly one `console.log` of the JSON array of
`{title: line}` records — it does not call `paste` and spawns no external
process. -/
theorem textAction_commandKey_logs_json (env : LaunchBar.Env)
    (args : LaunchBar.TextArgs) (f : String → String) (j : String)
    (h : env.commandKey = true) :
    LaunchBar.textAction env args f j =
      .consoleLog
        (LaunchBar.jsonTitleArray (LaunchBar.textActionLines args f)) := by
  unfold LaunchBar.textAction
  rw [h]
  rfl

/-- C10 (witness): the property at a concrete snapshot with the
command-key flag set. -/
theorem textAction_commandKey_logs_json_witness :
    LaunchBar.textAction (LaunchBar.makeEnv (fun _ => some "1"))
        (.str "x") id "\n" =
      .consoleLog (LaunchBar.jsonTitleArray
        (LaunchBar.textActionLines (.str "x") id)) :=
  textAction_commandKey_logs_json _ _ _ _ (by decide)
